import Mathlib

/-!
Verification of the PulseNet IP-discovery tool (src/main.rs) against its
natural-language specification.  The Rust source is shallowly embedded:
pure functions become Lean functions, the network and the random number
generator become explicit oracles, and machine integers become `Nat`
(the claims under study do not involve overflow behaviour).
-/

set_option maxRecDepth 8192

/-- An IPv4 address as its four octets, mirroring `Ipv4Addr::octets()`. -/
structure Ipv4 where
  o0 : Nat
  o1 : Nat
  o2 : Nat
  o3 : Nat
deriving DecidableEq, Repr

/-- The 32-bit value of an address (big-endian octet composition). -/
def Ipv4.toNat (ip : Ipv4) : Nat :=
  ip.o0 * 16777216 + ip.o1 * 65536 + ip.o2 * 256 + ip.o3

/-- Rebuild an address from its 32-bit value. -/
def Ipv4.ofNat (n : Nat) : Ipv4 :=
  ⟨n / 16777216 % 256, n / 65536 % 256, n / 256 % 256, n % 256⟩

namespace filter

/-- Embeds `filter::is_public_ipv4` (src/main.rs lines 86-101): the Rust
`match` on `octets[0]`, arm by arm in source order; a guarded arm whose
guard fails falls through to the next arm, which is exactly the
if-then-else chain below. -/
def is_public_ipv4 (ip : Ipv4) : Bool :=
  if ip.o0 = 10 then false
  else if ip.o0 = 100 ∧ 64 ≤ ip.o1 ∧ ip.o1 ≤ 127 then false
  else if ip.o0 = 127 then false
  else if ip.o0 = 169 ∧ ip.o1 = 254 then false
  else if ip.o0 = 172 ∧ 16 ≤ ip.o1 ∧ ip.o1 ≤ 31 then false
  else if ip.o0 = 192 ∧ ip.o1 = 168 then false
  else if ip.o0 = 192 ∧ ip.o1 = 0 ∧ ip.o2 = 2 then false
  else if ip.o0 = 198 ∧ ip.o1 = 51 ∧ ip.o2 = 100 then false
  else if ip.o0 = 203 ∧ ip.o1 = 0 ∧ ip.o2 = 113 then false
  else if 224 ≤ ip.o0 then false
  else true

end filter

/-- The exclusion set as the specification words it (spec section 4.1):
membership of the address in one of the listed CIDR ranges, phrased on
octets (for octets below 256 this is exactly CIDR membership). -/
def excluded_spec (ip : Ipv4) : Prop :=
  ip.o0 = 10 ∨
  (ip.o0 = 100 ∧ 64 ≤ ip.o1 ∧ ip.o1 ≤ 127) ∨
  ip.o0 = 127 ∨
  (ip.o0 = 169 ∧ ip.o1 = 254) ∨
  (ip.o0 = 172 ∧ 16 ≤ ip.o1 ∧ ip.o1 ≤ 31) ∨
  (ip.o0 = 192 ∧ ip.o1 = 168) ∨
  (ip.o0 = 192 ∧ ip.o1 = 0 ∧ ip.o2 = 2) ∨
  (ip.o0 = 198 ∧ ip.o1 = 51 ∧ ip.o2 = 100) ∨
  (ip.o0 = 203 ∧ ip.o1 = 0 ∧ ip.o2 = 113) ∨
  224 ≤ ip.o0

instance (ip : Ipv4) : Decidable (excluded_spec ip) := by
  unfold excluded_spec; infer_instance

/-- Embeds the `ScanError` enum (src/main.rs line 159). -/
inductive ScanError
  | Timeout
  | ConnectionRefused
  | Unreachable
deriving DecidableEq, Repr

/-- Outcome of one `timeout(port_timeout, TcpStream::connect(addr))` call:
the connect succeeded within the slice, failed with `ConnectionRefused`,
failed with any other error kind, or the slice elapsed first. -/
inductive ConnectRes
  | ok
  | errRefused
  | errOther
  | timedOut
deriving DecidableEq, Repr

/-- The result triple of `Scanner::check_ip`:
`(port_found, latency_ms, error)`. -/
abbrev CheckResult := Option Nat × Option Nat × Option ScanError

/-- The random values drawn on the simulate branch of `check_ip`:
`rng.gen_bool(0.05)` and the fabricated latency `rng.gen_range(5..50)`. -/
structure SimRng where
  hit : Bool
  lat : Nat
deriving DecidableEq, Repr

/-- Embeds the `Scanner` struct (src/main.rs lines 161-165). -/
structure Scanner where
  ports : List Nat
  timeout_ms : Nat
  simulate : Bool
deriving DecidableEq, Repr

/-- The per-port timeout computed at src/main.rs line 182:
`self.timeout_ms / self.ports.len().max(1)` (integer division). -/
def Scanner.port_timeout (s : Scanner) : Nat :=
  s.timeout_ms / max s.ports.length 1

/-- Embeds the `for &port in &self.ports` loop of `check_ip`
(src/main.rs lines 185-197).  The network is an oracle `net` giving, for
the i-th attempt of this call, its classification and its wall-clock
duration in milliseconds; `elapsed` accumulates `start.elapsed()` and
`last_err` is the `last_error` mutable.  A refused or unreachable signal
overwrites `last_error` unconditionally (line 190); a timed-out attempt
writes `Timeout` only when `last_error` is still `None` (line 195). -/
def check_ip_loop : List Nat → (Nat → ConnectRes × Nat) → Nat → Option ScanError → CheckResult
  | [], _, _, last_err => (none, none, last_err)
  | port :: rest, net, elapsed, last_err =>
    match (net 0).1 with
    | ConnectRes.ok => (some port, some (elapsed + (net 0).2), none)
    | ConnectRes.errRefused =>
        check_ip_loop rest (fun i => net (i + 1)) (elapsed + (net 0).2)
          (some ScanError.ConnectionRefused)
    | ConnectRes.errOther =>
        check_ip_loop rest (fun i => net (i + 1)) (elapsed + (net 0).2)
          (some ScanError.Unreachable)
    | ConnectRes.timedOut =>
        check_ip_loop rest (fun i => net (i + 1)) (elapsed + (net 0).2)
          (if last_err.isNone then some ScanError.Timeout else last_err)

/-- Embeds `Scanner::check_ip` (src/main.rs lines 173-199).  On the
simulate branch the indexing `self.ports[0]` panics when the port list is
empty; a panic is modelled as `none`, a normal return as `some`. -/
def Scanner.check_ip (s : Scanner) (sim : SimRng) (net : Nat → ConnectRes × Nat) :
    Option CheckResult :=
  if s.simulate then
    if sim.hit then
      match s.ports with
      | [] => none
      | p :: _ => some (some p, some sim.lat, none)
    else some (none, none, some ScanError.Timeout)
  else some (check_ip_loop s.ports net 0 none)

/-- The last refused/unreachable signal in a list of attempt
classifications (used to characterise what the loop's `last_error`
ends as). -/
def lastSpecific : List ConnectRes → Option ScanError
  | [] => none
  | r :: rest =>
    match lastSpecific rest with
    | some e => some e
    | none =>
      match r with
      | ConnectRes.errRefused => some ScanError.ConnectionRefused
      | ConnectRes.errOther => some ScanError.Unreachable
      | _ => none

/-- The first refused/unreachable signal in a list of attempt
classifications. -/
def firstSpecific : List ConnectRes → Option ScanError
  | [] => none
  | ConnectRes.errRefused :: _ => some ScanError.ConnectionRefused
  | ConnectRes.errOther :: _ => some ScanError.Unreachable
  | _ :: rest => firstSpecific rest

/-- The Miss reason as the specification words it (spec section 4.3, for
a run of attempts none of which succeeds): the first non-success
classification encountered, except that an early bare timeout is
superseded by a later specific signal — i.e. the first specific signal
if one exists, else Timeout. -/
def spec_first_reason (rs : List ConnectRes) : Option ScanError :=
  match firstSpecific rs with
  | some e => some e
  | none => if rs = [] then none else some ScanError.Timeout

/-- Embeds the `Stats` accumulator (src/main.rs lines 204-212). -/
structure Stats where
  found : Nat
  timeouts : Nat
  refused : Nat
  unreachable : Nat
  total_processed : Nat
  total_latency : Nat
deriving DecidableEq, Repr

/-- One iteration of the aggregator loop (src/main.rs lines 273-308),
restricted to its `Stats` updates: `total_processed` always increments;
a hit increments `found` and accumulates `latency.unwrap_or(0)`; a miss
increments the counter matching its error, and a miss carrying no error
increments nothing further (the `None => {}` arm, line 304). -/
def step_stats (st : Stats) (r : CheckResult) : Stats :=
  match r with
  | (some _, lat, _) =>
      ⟨st.found + 1, st.timeouts, st.refused, st.unreachable,
        st.total_processed + 1, st.total_latency + lat.getD 0⟩
  | (none, _, some ScanError.Timeout) =>
      ⟨st.found, st.timeouts + 1, st.refused, st.unreachable,
        st.total_processed + 1, st.total_latency⟩
  | (none, _, some ScanError.ConnectionRefused) =>
      ⟨st.found, st.timeouts, st.refused + 1, st.unreachable,
        st.total_processed + 1, st.total_latency⟩
  | (none, _, some ScanError.Unreachable) =>
      ⟨st.found, st.timeouts, st.refused, st.unreachable + 1,
        st.total_processed + 1, st.total_latency⟩
  | (none, _, none) =>
      ⟨st.found, st.timeouts, st.refused, st.unreachable,
        st.total_processed + 1, st.total_latency⟩

/-- Draining the whole completion stream: fold the aggregator step over
the drained results, starting from `Stats::default()`. -/
def aggregate (rs : List CheckResult) : Stats :=
  rs.foldl step_stats ⟨0, 0, 0, 0, 0, 0⟩

/-- Embeds the `RandomSource` struct (src/main.rs line 109). -/
structure RandomSource where
  count : Nat
  current : Nat
deriving DecidableEq, Repr

/-- The first public address among the candidates an rng trace yields:
the `loop` inside `RandomSource::next_ip` keeps sampling until the
filter accepts; a trace with no public candidate models the execution
in which that loop never returns, as `none`. -/
def first_public : List Ipv4 → Option Ipv4
  | [] => none
  | ip :: rest => if filter.is_public_ipv4 ip then some ip else first_public rest

/-- Embeds `RandomSource::next_ip` (src/main.rs lines 111-124); the rng
is modelled as the list of candidate addresses the call samples. -/
def RandomSource.next_ip (s : RandomSource) (samples : List Ipv4) :
    Option Ipv4 × RandomSource :=
  if s.count ≤ s.current then (none, s)
  else (first_public samples, ⟨s.count, s.current + 1⟩)

/-- Embeds `RandomSource::total_count` (src/main.rs line 125). -/
def RandomSource.total_count (s : RandomSource) : Nat :=
  s.count

/-- The state of a `RandomSource` after `k` calls of `next_ip`, the
`k`-th call sampling the candidates `traces k`. -/
def RandomSource.run (s : RandomSource) (traces : Nat → List Ipv4) : Nat → RandomSource
  | 0 => s
  | k + 1 => ((RandomSource.run s traces k).next_ip (traces k)).2

/-- The value returned by the `k`-th (0-based) call of `next_ip`. -/
def RandomSource.result_at (s : RandomSource) (traces : Nat → List Ipv4) (k : Nat) :
    Option Ipv4 :=
  ((RandomSource.run s traces k).next_ip (traces k)).1

/-- Whitespace for the purposes of `str::trim`. -/
def isSpaceChar (c : Char) : Bool :=
  c = ' ' ∨ c = '\t' ∨ c = '\n' ∨ c = '\r'

/-- Models `str::trim`: strip leading and trailing whitespace. -/
def trimChars (cs : List Char) : List Char :=
  ((cs.dropWhile isSpaceChar).reverse.dropWhile isSpaceChar).reverse

/-- Split a character list at every occurrence of the separator; the
separator is consumed and empty pieces are kept (the behaviour of
`str::split`). -/
def splitOnChar (sep : Char) : List Char → List (List Char)
  | [] => [[]]
  | c :: rest =>
    if c = sep then [] :: splitOnChar sep rest
    else
      match splitOnChar sep rest with
      | piece :: pieces => (c :: piece) :: pieces
      | [] => [[c]]

/-- The value of a string of decimal digits. -/
def digitsToNat (cs : List Char) : Nat :=
  cs.foldl (fun acc c => acc * 10 + (c.toNat - 48)) 0

/-- Modelled from the spec: one octet of Rust's `Ipv4Addr` `FromStr`
(std library code, not part of this repository): a non-empty run of
decimal digits, no leading zero unless the octet is exactly "0", value
at most 255. -/
def parse_octet (cs : List Char) : Option Nat :=
  if cs = [] then none
  else if ¬ cs.all Char.isDigit then none
  else if 1 < cs.length ∧ cs.head? = some '0' then none
  else if digitsToNat cs ≤ 255 then some (digitsToNat cs)
  else none

/-- Modelled from the spec: Rust's `Ipv4Addr` `FromStr` (std library
code, not part of this repository): exactly four dot-separated octets. -/
def parse_ipv4 (cs : List Char) : Option Ipv4 :=
  match splitOnChar '.' cs with
  | [p0, p1, p2, p3] =>
    match parse_octet p0, parse_octet p1, parse_octet p2, parse_octet p3 with
    | some a, some b, some c, some d => some ⟨a, b, c, d⟩
    | _, _, _, _ => none
  | _ => none

/-- Strip one trailing carriage return, as `str::lines` does. -/
def chomp_cr (cs : List Char) : List Char :=
  if cs.getLast? = some '\r' then cs.dropLast else cs

/-- Models `str::lines`: split at newlines, drop a final empty piece
produced by a trailing newline, strip a trailing `\r` from each line. -/
def rust_lines (cs : List Char) : List (List Char) :=
  let segs := splitOnChar '\n' cs
  (if segs.getLast? = some [] then segs.dropLast else segs).map chomp_cr

/-- A parsed CIDR block: an address and a network-significant bit
count. -/
structure Ipv4Net where
  addr : Ipv4
  plen : Nat
deriving DecidableEq, Repr

/-- Modelled from the spec: the network-length half of `Ipv4Net`
parsing (the `ipnet` crate, not part of this repository): a decimal
number at most 32. -/
def parse_plen (cs : List Char) : Option Nat :=
  if cs = [] then none
  else if ¬ cs.all Char.isDigit then none
  else if digitsToNat cs ≤ 32 then some (digitsToNat cs)
  else none

/-- Modelled from the spec: `Ipv4Net` `FromStr` (the `ipnet` crate, not
part of this repository): `address/length`. -/
def parse_ipv4net (cs : List Char) : Option Ipv4Net :=
  match splitOnChar '/' cs with
  | [a, p] =>
    match parse_ipv4 a, parse_plen p with
    | some ip, some n => some ⟨ip, n⟩
    | _, _ => none
  | _ => none

/-- Modelled from the spec: `Ipv4Net::hosts()` (the `ipnet` crate, not
part of this repository) as the spec words it — the usable host
addresses of the block, network and broadcast excluded. -/
def Ipv4Net.hosts (net : Ipv4Net) : List Ipv4 :=
  let sz := 2 ^ (32 - net.plen)
  let base := net.addr.toNat / sz * sz
  (List.range' (base + 1) (sz - 2)).map Ipv4.ofNat

/-- The loop of `MultiIpSource::from_cidr` before the shuffle
(src/main.rs lines 131-136): split the configuration string at commas,
trim and parse each entry, silently skip entries that fail to parse,
and concatenate the host expansions in entry order. -/
def expand_cidr (cs : List Char) : List Ipv4 :=
  (((splitOnChar ',' cs).filterMap (fun s => parse_ipv4net (trimChars s))).map
    Ipv4Net.hosts).flatten

/-- Embeds the `MultiIpSource` struct (src/main.rs line 128). -/
structure MultiIpSource where
  ips : List Ipv4
deriving DecidableEq, Repr

/-- Embeds `MultiIpSource::from_cidr` (src/main.rs lines 130-140); the
rng-driven in-place shuffle is modelled as an oracle function, to be
constrained to a permutation in the theorems. -/
def MultiIpSource.from_cidr (cs : List Char) (shuffle : List Ipv4 → List Ipv4) :
    MultiIpSource :=
  ⟨shuffle (expand_cidr cs)⟩

/-- Embeds `MultiIpSource::from_file` (src/main.rs lines 141-151) for a
file whose read succeeded with the given contents: parse each trimmed
line, silently skip lines that fail to parse, then shuffle. -/
def MultiIpSource.from_file (content : List Char) (shuffle : List Ipv4 → List Ipv4) :
    MultiIpSource :=
  ⟨shuffle ((rust_lines content).filterMap (fun l => parse_ipv4 (trimChars l)))⟩

/-- Embeds `MultiIpSource::next_ip` (src/main.rs line 154): `Vec::pop`,
i.e. remove and return the last element. -/
def MultiIpSource.next_ip (s : MultiIpSource) : Option Ipv4 × MultiIpSource :=
  match s.ips.getLast? with
  | none => (none, s)
  | some ip => (some ip, ⟨s.ips.dropLast⟩)

/-- Embeds `MultiIpSource::total_count` (src/main.rs line 155). -/
def MultiIpSource.total_count (s : MultiIpSource) : Nat :=
  s.ips.length

/-- Helper for `drain`: call `next_ip` at most `n` times, collecting the
yielded addresses until the source reports `None`. -/
def drainAux : Nat → MultiIpSource → List Ipv4
  | 0, _ => []
  | n + 1, s =>
    match s.next_ip with
    | (none, _) => []
    | (some ip, rest) => ip :: drainAux n rest

/-- Everything a `MultiIpSource` yields over successive `next_ip` calls,
in yield order (this is how `main` materialises the address list,
src/main.rs lines 254-255). -/
def MultiIpSource.drain (s : MultiIpSource) : List Ipv4 :=
  drainAux s.ips.length s

/-- How the pre-probe phase of `main` ends when it ends early. -/
inductive MainAbort
  | errResult
  | panicked
deriving DecidableEq, Repr

/-- Embeds `NonZeroU32::new`: `None` exactly on zero. -/
def NonZeroU32_new (n : Nat) : Option Nat :=
  if n = 0 then none else some n

/-- Embeds the run skeleton of `main` (src/main.rs lines 250-308) from
the first fallible step onward: opening the two output sinks (modelled
by whether each open succeeds) propagates a failure with `?` as an
`Err` return; then the rate limiter is built with
`NonZeroU32::new(args.rate).unwrap()`, whose panic on rate 0 is modelled
as `MainAbort.panicked`; only after all of that does any probe run and
feed the aggregator. -/
def run_main (output_ok clean_ok : Bool) (rate : Nat) (ips : List Ipv4)
    (probe : Ipv4 → CheckResult) : Except MainAbort Stats :=
  if output_ok = false then Except.error MainAbort.errResult
  else if clean_ok = false then Except.error MainAbort.errResult
  else
    match NonZeroU32_new rate with
    | none => Except.error MainAbort.panicked
    | some _ => Except.ok (aggregate (ips.map probe))

/-- The final statistics of a fully drained run: each address probe is
described by its own pair of oracles (simulate rng, network), its result
is fed to the aggregator, and a panicking probe (possible only with an
empty port list in simulate mode) yields nothing. -/
def run_stats (sc : Scanner) (os : List (SimRng × (Nat → ConnectRes × Nat))) : Stats :=
  aggregate (os.filterMap (fun o => sc.check_ip o.1 o.2))

/-- A network oracle whose first attempt is refused and whose second
attempt fails with a non-refused error. -/
def net_refused_then_other : Nat → ConnectRes × Nat :=
  fun i => if i = 0 then (ConnectRes.errRefused, 1) else (ConnectRes.errOther, 1)

/-- A network oracle whose first attempt times out and whose second
attempt connects. -/
def net_timeout_then_ok : Nat → ConnectRes × Nat :=
  fun i => if i = 0 then (ConnectRes.timedOut, 500) else (ConnectRes.ok, 100)

/-- An rng-trace oracle that always offers `8.8.8.8` first. -/
def traces_dns : Nat → List Ipv4 :=
  fun _ => [⟨8, 8, 8, 8⟩]

/-! ## Helper lemmas -/

theorem check_ip_loop_wf (ports : List Nat) (net : Nat → ConnectRes × Nat)
    (e : Nat) (le : Option ScanError) (h : ports ≠ [] ∨ le.isSome = true) :
    (check_ip_loop ports net e le).1.isSome = true ∨
      (check_ip_loop ports net e le).2.2.isSome = true := by
  induction ports generalizing net e le with
  | nil =>
      rcases h with h | h
      · exact absurd rfl h
      · exact Or.inr h
  | cons p rest ih =>
      cases hnet : (net 0).1 with
      | ok => simp [check_ip_loop, hnet]
      | errRefused =>
          simp only [check_ip_loop, hnet]
          exact ih _ _ _ (Or.inr rfl)
      | errOther =>
          simp only [check_ip_loop, hnet]
          exact ih _ _ _ (Or.inr rfl)
      | timedOut =>
          simp only [check_ip_loop, hnet]
          refine ih _ _ _ (Or.inr ?_)
          cases le <;> simp

theorem check_ip_wf (sc : Scanner) (hne : sc.ports ≠ []) (sim : SimRng)
    (net : Nat → ConnectRes × Nat) (r : CheckResult)
    (hr : sc.check_ip sim net = some r) :
    r.1.isSome = true ∨ r.2.2.isSome = true := by
  unfold Scanner.check_ip at hr
  by_cases hs : sc.simulate = true
  · rw [if_pos hs] at hr
    by_cases hhit : sim.hit = true
    · rw [if_pos hhit] at hr
      cases hports : sc.ports with
      | nil => rw [hports] at hr; exact Option.noConfusion hr
      | cons p rest =>
          rw [hports] at hr
          injection hr with hr
          subst hr
          simp
    · rw [if_neg hhit] at hr
      injection hr with hr
      subst hr
      simp
  · rw [if_neg hs] at hr
    injection hr with hr
    subst hr
    exact check_ip_loop_wf sc.ports net 0 none (Or.inl hne)

theorem foldl_step_stats_inv (rs : List CheckResult) (st : Stats)
    (hwf : ∀ r ∈ rs, r.1.isSome = true ∨ r.2.2.isSome = true)
    (hst : st.total_processed =
      st.found + st.timeouts + st.refused + st.unreachable) :
    (rs.foldl step_stats st).total_processed =
      (rs.foldl step_stats st).found + (rs.foldl step_stats st).timeouts +
      (rs.foldl step_stats st).refused + (rs.foldl step_stats st).unreachable := by
  induction rs generalizing st with
  | nil => simpa using hst
  | cons r rest ih =>
      rw [List.foldl_cons]
      apply ih
      · intro x hx
        exact hwf x (List.mem_cons_of_mem _ hx)
      · have hr := hwf r (List.mem_cons_self r rest)
        obtain ⟨p, lat, err⟩ := r
        cases p with
        | some v => simp [step_stats]; omega
        | none =>
            cases err with
            | none => simp at hr
            | some e => cases e <;> (simp [step_stats]; omega)

/-! ## Claim C1 -/

/-- C1 counterexample: the claim fails for a run whose configured port
list is empty (the claim quantifies over every port list).  There,
non-simulate `check_ip` returns `(None, None, None)`, and the aggregator
counts it in `total_processed` but in none of the four categories, so
`total_processed = 1` while `found + timeouts + refused + unreachable = 0`. -/
theorem stats_sum_counterexample :
    Scanner.check_ip ⟨[], 1500, false⟩ ⟨false, 0⟩ net_refused_then_other =
      some (none, none, none) ∧
    (aggregate [(none, none, none)]).total_processed = 1 ∧
    (aggregate [(none, none, none)]).found + (aggregate [(none, none, none)]).timeouts +
      (aggregate [(none, none, none)]).refused +
      (aggregate [(none, none, none)]).unreachable = 0 :=
  ⟨rfl, rfl, rfl⟩

/-- C1 (amended): for every run over a non-empty configured port list —
whatever the address source, the oracles and the mix of outcomes — the
drained statistics satisfy
`total_processed = found + timeouts + refused + unreachable`, and hence
`found ≤ total_processed`. -/
theorem stats_sum_invariant (sc : Scanner) (hne : sc.ports ≠ [])
    (os : List (SimRng × (Nat → ConnectRes × Nat))) :
    (run_stats sc os).total_processed =
      (run_stats sc os).found + (run_stats sc os).timeouts +
      (run_stats sc os).refused + (run_stats sc os).unreachable ∧
    (run_stats sc os).found ≤ (run_stats sc os).total_processed := by
  have hsum : (run_stats sc os).total_processed =
      (run_stats sc os).found + (run_stats sc os).timeouts +
      (run_stats sc os).refused + (run_stats sc os).unreachable := by
    unfold run_stats aggregate
    apply foldl_step_stats_inv
    · intro r hrmem
      rcases List.mem_filterMap.mp hrmem with ⟨o, _, ho⟩
      exact check_ip_wf sc hne o.1 o.2 r ho
    · rfl
  exact ⟨hsum, by omega⟩

/-- C1 witness: a singleton run on port list `[80]` whose sole probe
times out on port 80 and then connects on port 443's attempt. -/
theorem stats_sum_invariant_witness :
    (run_stats ⟨[80], 1000, false⟩ [(⟨false, 0⟩, net_timeout_then_ok)]).total_processed =
      (run_stats ⟨[80], 1000, false⟩ [(⟨false, 0⟩, net_timeout_then_ok)]).found +
      (run_stats ⟨[80], 1000, false⟩ [(⟨false, 0⟩, net_timeout_then_ok)]).timeouts +
      (run_stats ⟨[80], 1000, false⟩ [(⟨false, 0⟩, net_timeout_then_ok)]).refused +
      (run_stats ⟨[80], 1000, false⟩ [(⟨false, 0⟩, net_timeout_then_ok)]).unreachable ∧
    (run_stats ⟨[80], 1000, false⟩ [(⟨false, 0⟩, net_timeout_then_ok)]).found ≤
      (run_stats ⟨[80], 1000, false⟩ [(⟨false, 0⟩, net_timeout_then_ok)]).total_processed :=
  stats_sum_invariant ⟨[80], 1000, false⟩ (by decide) [(⟨false, 0⟩, net_timeout_then_ok)]

/-! ## Claim C5 -/

/-- C5: `filter::is_public_ipv4` is a total boolean predicate on octet
quadruples that returns `false` exactly on the excluded ranges the
specification lists, and returns `true` on everything else, in
particular on `8.8.8.8` and `1.1.1.1`. -/
theorem is_public_iff_not_excluded (ip : Ipv4) (hb0 : ip.o0 < 256)
    (hb1 : ip.o1 < 256) (hb2 : ip.o2 < 256) (hb3 : ip.o3 < 256) :
    (filter.is_public_ipv4 ip = false ↔ excluded_spec ip) ∧
    filter.is_public_ipv4 ⟨8, 8, 8, 8⟩ = true ∧
    filter.is_public_ipv4 ⟨1, 1, 1, 1⟩ = true := by
  refine ⟨?_, by decide, by decide⟩
  unfold filter.is_public_ipv4 excluded_spec
  by_cases h1 : ip.o0 = 10
  · rw [if_pos h1]; exact iff_of_true rfl (Or.inl h1)
  rw [if_neg h1]
  by_cases h2 : ip.o0 = 100 ∧ 64 ≤ ip.o1 ∧ ip.o1 ≤ 127
  · rw [if_pos h2]; exact iff_of_true rfl (Or.inr (Or.inl h2))
  rw [if_neg h2]
  by_cases h3 : ip.o0 = 127
  · rw [if_pos h3]; exact iff_of_true rfl (Or.inr (Or.inr (Or.inl h3)))
  rw [if_neg h3]
  by_cases h4 : ip.o0 = 169 ∧ ip.o1 = 254
  · rw [if_pos h4]; exact iff_of_true rfl (Or.inr (Or.inr (Or.inr (Or.inl h4))))
  rw [if_neg h4]
  by_cases h5 : ip.o0 = 172 ∧ 16 ≤ ip.o1 ∧ ip.o1 ≤ 31
  · rw [if_pos h5]
    exact iff_of_true rfl (Or.inr (Or.inr (Or.inr (Or.inr (Or.inl h5)))))
  rw [if_neg h5]
  by_cases h6 : ip.o0 = 192 ∧ ip.o1 = 168
  · rw [if_pos h6]
    exact iff_of_true rfl (Or.inr (Or.inr (Or.inr (Or.inr (Or.inr (Or.inl h6))))))
  rw [if_neg h6]
  by_cases h7 : ip.o0 = 192 ∧ ip.o1 = 0 ∧ ip.o2 = 2
  · rw [if_pos h7]
    exact iff_of_true rfl
      (Or.inr (Or.inr (Or.inr (Or.inr (Or.inr (Or.inr (Or.inl h7)))))))
  rw [if_neg h7]
  by_cases h8 : ip.o0 = 198 ∧ ip.o1 = 51 ∧ ip.o2 = 100
  · rw [if_pos h8]
    exact iff_of_true rfl
      (Or.inr (Or.inr (Or.inr (Or.inr (Or.inr (Or.inr (Or.inr (Or.inl h8))))))))
  rw [if_neg h8]
  by_cases h9 : ip.o0 = 203 ∧ ip.o1 = 0 ∧ ip.o2 = 113
  · rw [if_pos h9]
    exact iff_of_true rfl
      (Or.inr (Or.inr (Or.inr (Or.inr (Or.inr (Or.inr (Or.inr (Or.inr (Or.inl h9)))))))))
  rw [if_neg h9]
  by_cases h10 : 224 ≤ ip.o0
  · rw [if_pos h10]
    exact iff_of_true rfl
      (Or.inr (Or.inr (Or.inr (Or.inr (Or.inr (Or.inr (Or.inr (Or.inr (Or.inr h10)))))))))
  rw [if_neg h10]
  refine iff_of_false (by decide) ?_
  simp only [not_or]
  exact ⟨h1, h2, h3, h4, h5, h6, h7, h8, h9, h10⟩

/-- C5 witness: the characterisation applied at the concrete public
address `9.9.9.9`. -/
theorem is_public_iff_not_excluded_witness :
    (filter.is_public_ipv4 ⟨9, 9, 9, 9⟩ = false ↔ excluded_spec ⟨9, 9, 9, 9⟩) ∧
    filter.is_public_ipv4 ⟨8, 8, 8, 8⟩ = true ∧
    filter.is_public_ipv4 ⟨1, 1, 1, 1⟩ = true :=
  is_public_iff_not_excluded ⟨9, 9, 9, 9⟩ (by decide) (by decide) (by decide) (by decide)

/-! ## Claim C9 -/

/-- C9 counterexample: with rate limit 0 (and both sinks opening fine)
the run dies in `NonZeroU32::new(args.rate).unwrap()` — a panic, not an
error result propagated to the caller, contradicting the claim's "the
fatal error is propagated to the caller as an error result". -/
theorem pre_probe_counterexample :
    run_main true true 0 [] (fun _ => (none, none, none)) =
      Except.error MainAbort.panicked ∧
    (Except.error MainAbort.panicked : Except MainAbort Stats) ≠
      Except.error MainAbort.errResult := by
  refine ⟨rfl, fun h => ?_⟩
  injection h with h
  exact MainAbort.noConfusion h

/-- C9 (amended): with rate limit 0, or when opening either output sink
fails, the run terminates before any probe is started; a failed sink
open is propagated to the caller as an error result, while a zero rate
limit terminates the run by a panic (`unwrap` of `None`), not as an
error result. -/
theorem pre_probe_abort (output_ok clean_ok : Bool) (rate : Nat) (ips : List Ipv4)
    (probe : Ipv4 → CheckResult)
    (habort : rate = 0 ∨ output_ok = false ∨ clean_ok = false) :
    (∃ e, run_main output_ok clean_ok rate ips probe = Except.error e) ∧
    (output_ok = false ∨ clean_ok = false →
      run_main output_ok clean_ok rate ips probe = Except.error MainAbort.errResult) ∧
    (output_ok = true → clean_ok = true → rate = 0 →
      run_main output_ok clean_ok rate ips probe = Except.error MainAbort.panicked) := by
  refine ⟨?_, ?_, ?_⟩
  · rcases habort with h | h | h
    · cases ho : output_ok
      · exact ⟨MainAbort.errResult, by simp [run_main]⟩
      · cases hc : clean_ok
        · exact ⟨MainAbort.errResult, by simp [run_main]⟩
        · exact ⟨MainAbort.panicked, by subst h; simp [run_main, NonZeroU32_new]⟩
    · exact ⟨MainAbort.errResult, by subst h; simp [run_main]⟩
    · refine ⟨MainAbort.errResult, ?_⟩
      subst h
      cases output_ok <;> simp [run_main]
  · intro hor
    rcases hor with h | h
    · subst h; simp [run_main]
    · subst h; cases output_ok <;> simp [run_main]
  · intro h1 h2 h3
    subst h1; subst h2; subst h3
    simp [run_main, NonZeroU32_new]

/-- C9 witness: a run whose main output sink fails to open. -/
theorem pre_probe_abort_witness :
    (∃ e, run_main false true 5 [] (fun _ => (none, none, none)) = Except.error e) ∧
    (false = false ∨ true = false →
      run_main false true 5 [] (fun _ => (none, none, none)) =
        Except.error MainAbort.errResult) ∧
    (false = true → true = true → 5 = 0 →
      run_main false true 5 [] (fun _ => (none, none, none)) =
        Except.error MainAbort.panicked) :=
  pre_probe_abort false true 5 [] (fun _ => (none, none, none)) (Or.inr (Or.inl rfl))

/-! ## Claim C10 -/

/-- C10: with a non-empty parsed port list, every simulate-mode call of
`check_ip` returns normally (no panic) and yields either a hit on the
first configured port or a timeout miss; with the empty port list, the
simulate execution that draws a hit panics on the out-of-bounds
`self.ports[0]`. -/
theorem simulate_safety (ports : List Nat) (T lat : Nat) (hit : Bool)
    (net : Nat → ConnectRes × Nat) (hne : ports ≠ []) :
    (Scanner.check_ip ⟨ports, T, true⟩ ⟨hit, lat⟩ net =
        some (some (ports.head hne), some lat, none) ∨
      Scanner.check_ip ⟨ports, T, true⟩ ⟨hit, lat⟩ net =
        some (none, none, some ScanError.Timeout)) ∧
    Scanner.check_ip ⟨[], T, true⟩ ⟨true, lat⟩ net = none := by
  constructor
  · cases hit with
    | true =>
        cases ports with
        | nil => exact absurd rfl hne
        | cons p rest => exact Or.inl (by simp [Scanner.check_ip])
    | false => exact Or.inr (by simp [Scanner.check_ip])
  · simp [Scanner.check_ip]

/-- C10 witness: simulate mode on port list `[80, 443]` with a drawn
hit of latency 7. -/
theorem simulate_safety_witness :
    (Scanner.check_ip ⟨[80, 443], 1500, true⟩ ⟨true, 7⟩ net_refused_then_other =
        some (some 80, some 7, none) ∨
      Scanner.check_ip ⟨[80, 443], 1500, true⟩ ⟨true, 7⟩ net_refused_then_other =
        some (none, none, some ScanError.Timeout)) ∧
    Scanner.check_ip ⟨[], 1500, true⟩ ⟨true, 7⟩ net_refused_then_other = none := by
  have h := simulate_safety [80, 443] 1500 7 true net_refused_then_other (by decide)
  simpa using h

/-! ## Loop characterisation lemmas -/

theorem range_map_shift {α : Type} (n : Nat) (f : Nat → α) :
    (List.range (n + 1)).map f = f 0 :: (List.range n).map (fun i => f (i + 1)) := by
  rw [List.range_succ_eq_map]
  simp [List.map_map, Function.comp_def]

theorem check_ip_loop_no_success (ports : List Nat) (net : Nat → ConnectRes × Nat)
    (e : Nat) (le : Option ScanError)
    (hns : ∀ i, i < ports.length → (net i).1 ≠ ConnectRes.ok) :
    check_ip_loop ports net e le =
      (none, none,
        match lastSpecific ((List.range ports.length).map (fun i => (net i).1)) with
        | some r => some r
        | none =>
            if ports = [] then le
            else if le.isNone then some ScanError.Timeout else le) := by
  induction ports generalizing net e le with
  | nil => simp [check_ip_loop, lastSpecific]
  | cons p rest ih =>
      have hrange : (List.range (p :: rest).length).map (fun i => (net i).1) =
          (net 0).1 :: (List.range rest.length).map (fun i => (net (i + 1)).1) := by
        simp only [List.length_cons]
        exact range_map_shift rest.length (fun i => (net i).1)
      cases hnet : (net 0).1 with
      | ok => exact absurd hnet (hns 0 (by simp))
      | errRefused =>
          simp only [check_ip_loop, hnet]
          rw [ih (fun i => net (i + 1)) (e + (net 0).2)
            (some ScanError.ConnectionRefused)
            (fun i hi => hns (i + 1) (by simpa using Nat.succ_lt_succ hi))]
          rw [hrange, hnet]
          cases hls : lastSpecific ((List.range rest.length).map (fun i => (net (i + 1)).1)) with
          | some r => simp [lastSpecific, hls]
          | none =>
              by_cases hre : rest = []
              · subst hre; simp [lastSpecific, hls]
              · simp [lastSpecific, hls, hre]
      | errOther =>
          simp only [check_ip_loop, hnet]
          rw [ih (fun i => net (i + 1)) (e + (net 0).2)
            (some ScanError.Unreachable)
            (fun i hi => hns (i + 1) (by simpa using Nat.succ_lt_succ hi))]
          rw [hrange, hnet]
          cases hls : lastSpecific ((List.range rest.length).map (fun i => (net (i + 1)).1)) with
          | some r => simp [lastSpecific, hls]
          | none =>
              by_cases hre : rest = []
              · subst hre; simp [lastSpecific, hls]
              · simp [lastSpecific, hls, hre]
      | timedOut =>
          simp only [check_ip_loop, hnet]
          rw [ih (fun i => net (i + 1)) (e + (net 0).2)
            (if le.isNone then some ScanError.Timeout else le)
            (fun i hi => hns (i + 1) (by simpa using Nat.succ_lt_succ hi))]
          rw [hrange, hnet]
          cases hls : lastSpecific ((List.range rest.length).map (fun i => (net (i + 1)).1)) with
          | some r => simp [lastSpecific, hls]
          | none =>
              by_cases hre : rest = []
              · subst hre; cases le <;> simp [lastSpecific, hls]
              · cases le <;> simp [lastSpecific, hls, hre]

theorem check_ip_loop_first_ok (ports : List Nat) (net : Nat → ConnectRes × Nat)
    (e : Nat) (le : Option ScanError) (k : Nat) (hk : k < ports.length)
    (hbefore : ∀ j, j < k → (net j).1 ≠ ConnectRes.ok)
    (hok : (net k).1 = ConnectRes.ok) :
    check_ip_loop ports net e le =
      (some (ports.get ⟨k, hk⟩),
        some (e + ((List.range (k + 1)).map (fun i => (net i).2)).sum), none) := by
  induction ports generalizing net e le k with
  | nil => cases hk
  | cons p rest ih =>
      cases k with
      | zero =>
          simp only [check_ip_loop, hok]
          simp [List.range_succ]
      | succ m =>
          have h0 : (net 0).1 ≠ ConnectRes.ok := hbefore 0 (Nat.succ_pos m)
          have hsum : ((List.range (m + 1 + 1)).map (fun i => (net i).2)).sum =
              (net 0).2 + ((List.range (m + 1)).map (fun i => (net (i + 1)).2)).sum := by
            rw [range_map_shift (m + 1) (fun i => (net i).2)]
            simp
          have hm : m < rest.length := Nat.lt_of_succ_lt_succ hk
          cases hnet : (net 0).1 with
          | ok => exact absurd hnet h0
          | errRefused =>
              simp only [check_ip_loop, hnet]
              rw [ih (fun i => net (i + 1)) (e + (net 0).2)
                (some ScanError.ConnectionRefused) m hm
                (fun j hj => hbefore (j + 1) (Nat.succ_lt_succ hj)) hok]
              rw [hsum]
              simp [Nat.add_assoc]
          | errOther =>
              simp only [check_ip_loop, hnet]
              rw [ih (fun i => net (i + 1)) (e + (net 0).2)
                (some ScanError.Unreachable) m hm
                (fun j hj => hbefore (j + 1) (Nat.succ_lt_succ hj)) hok]
              rw [hsum]
              simp [Nat.add_assoc]
          | timedOut =>
              simp only [check_ip_loop, hnet]
              rw [ih (fun i => net (i + 1)) (e + (net 0).2)
                (if le.isNone then some ScanError.Timeout else le) m hm
                (fun j hj => hbefore (j + 1) (Nat.succ_lt_succ hj)) hok]
              rw [hsum]
              simp [Nat.add_assoc]

theorem lastSpecific_of_timeouts (rs : List ConnectRes)
    (h : ∀ r ∈ rs, r = ConnectRes.timedOut) : lastSpecific rs = none := by
  induction rs with
  | nil => rfl
  | cons r rest ih =>
      have hr := h r (List.mem_cons_self r rest)
      subst hr
      simp [lastSpecific, ih (fun x hx => h x (List.mem_cons_of_mem _ hx))]

theorem lastSpecific_all_refused (rs : List ConnectRes)
    (hall : ∀ r ∈ rs, r = ConnectRes.timedOut ∨ r = ConnectRes.errRefused)
    (hex : ∃ r ∈ rs, r = ConnectRes.errRefused) :
    lastSpecific rs = some ScanError.ConnectionRefused := by
  induction rs with
  | nil => rcases hex with ⟨r, hmem, _⟩; cases hmem
  | cons r rest ih =>
      by_cases hrest : ∃ x ∈ rest, x = ConnectRes.errRefused
      · simp [lastSpecific, ih (fun x hx => hall x (List.mem_cons_of_mem _ hx)) hrest]
      · have htail : ∀ x ∈ rest, x = ConnectRes.timedOut := by
          intro x hx
          rcases hall x (List.mem_cons_of_mem _ hx) with h | h
          · exact h
          · exact absurd ⟨x, hx, h⟩ hrest
        have hr : r = ConnectRes.errRefused := by
          rcases hex with ⟨y, hy, hyr⟩
          rcases List.mem_cons.mp hy with rfl | hmem
          · exact hyr
          · exact absurd ⟨y, hmem, hyr⟩ hrest
        subst hr
        simp [lastSpecific, lastSpecific_of_timeouts rest htail]

/-! ## Claim C2 -/

/-- C2 counterexample: on ports `[80, 443]`, where port 80's attempt is
refused and port 443's attempt fails with a non-refused error, the code
returns `Miss{Unreachable}` — the later specific error overwrote the
earlier one (src/main.rs line 190 assigns unconditionally) — while the
claim's first-signal rule demands `Miss{ConnectionRefused}`. -/
theorem miss_reason_counterexample :
    Scanner.check_ip ⟨[80, 443], 1000, false⟩ ⟨false, 0⟩ net_refused_then_other =
      some (none, none, some ScanError.Unreachable) ∧
    spec_first_reason [ConnectRes.errRefused, ConnectRes.errOther] =
      some ScanError.ConnectionRefused ∧
    (some ScanError.Unreachable : Option ScanError) ≠ some ScanError.ConnectionRefused :=
  ⟨rfl, rfl, by decide⟩

/-- C2 (amended): for every non-simulate `check_ip` call in which no
port attempt succeeds, the returned Miss reason is the **last** specific
signal (refused or unreachable) observed across the ports tried in
order — a later specific signal of a different kind replaces an earlier
one — and is `Timeout` exactly when at least one port was tried and no
specific signal was seen; a timeout never replaces any recorded
reason. -/
theorem miss_reason_last_specific (ports : List Nat) (T : Nat) (sim : SimRng)
    (net : Nat → ConnectRes × Nat)
    (hns : ∀ i, i < ports.length → (net i).1 ≠ ConnectRes.ok) :
    Scanner.check_ip ⟨ports, T, false⟩ sim net =
      some (none, none,
        match lastSpecific ((List.range ports.length).map (fun i => (net i).1)) with
        | some r => some r
        | none => if ports = [] then none else some ScanError.Timeout) := by
  unfold Scanner.check_ip
  rw [if_neg (by simp)]
  rw [check_ip_loop_no_success ports net 0 none hns]
  cases hls : lastSpecific ((List.range ports.length).map (fun i => (net i).1)) with
  | some r => simp [hls]
  | none => simp [hls]

/-- C2 witness: the amended rule evaluated on the counterexample input:
refused then unreachable ends as `Miss{Unreachable}`. -/
theorem miss_reason_last_specific_witness :
    Scanner.check_ip ⟨[80, 443], 1000, false⟩ ⟨false, 0⟩ net_refused_then_other =
      some (none, none,
        match lastSpecific ((List.range ([80, 443] : List Nat).length).map
          (fun i => (net_refused_then_other i).1)) with
        | some r => some r
        | none => if ([80, 443] : List Nat) = [] then none
                  else some ScanError.Timeout) := by
  have h := miss_reason_last_specific [80, 443] 1000 ⟨false, 0⟩ net_refused_then_other
    (by intro i hi; cases i <;> simp [net_refused_then_other])
  exact h

/-! ## Claim C3 -/

/-- C3: when every attempted port either times out or is refused, at
least one is refused and none succeeds, the probe returns
`Miss{ConnectionRefused}`, never `Miss{Timeout}`: a timeout never
overwrites the recorded refused reason, and every specific signal here
is refused. -/
theorem refused_precedence (ports : List Nat) (T : Nat) (sim : SimRng)
    (net : Nat → ConnectRes × Nat) (hne : ports ≠ [])
    (hall : ∀ i, i < ports.length →
      (net i).1 = ConnectRes.timedOut ∨ (net i).1 = ConnectRes.errRefused)
    (hex : ∃ i, i < ports.length ∧ (net i).1 = ConnectRes.errRefused) :
    Scanner.check_ip ⟨ports, T, false⟩ sim net =
      some (none, none, some ScanError.ConnectionRefused) := by
  have hns : ∀ i, i < ports.length → (net i).1 ≠ ConnectRes.ok := by
    intro i hi
    rcases hall i hi with h | h <;> simp [h]
  unfold Scanner.check_ip
  rw [if_neg (by simp)]
  rw [check_ip_loop_no_success ports net 0 none hns]
  have hl : lastSpecific ((List.range ports.length).map (fun i => (net i).1)) =
      some ScanError.ConnectionRefused := by
    apply lastSpecific_all_refused
    · intro r hr
      rcases List.mem_map.mp hr with ⟨i, hi, rfl⟩
      exact hall i (List.mem_range.mp hi)
    · rcases hex with ⟨i, hi, hr⟩
      exact ⟨(net i).1, List.mem_map_of_mem _ (List.mem_range.mpr hi), hr⟩
  simp [hl]

/-- C3 witness: port 80 times out, port 443 is refused; the probe
reports `Miss{ConnectionRefused}`. -/
theorem refused_precedence_witness :
    Scanner.check_ip ⟨[80, 443], 1000, false⟩ ⟨false, 0⟩
      (fun i => if i = 0 then (ConnectRes.timedOut, 500) else (ConnectRes.errRefused, 1)) =
      some (none, none, some ScanError.ConnectionRefused) := by
  have h := refused_precedence [80, 443] 1000 ⟨false, 0⟩
    (fun i => if i = 0 then (ConnectRes.timedOut, 500) else (ConnectRes.errRefused, 1))
    (by decide)
    (by intro i hi; cases i <;> simp)
    ⟨1, by decide, by decide⟩
  exact h

/-! ## Claim C4 -/

/-- C4: the per-port timeout is exactly `T / max(1, n)` for `n`
configured ports; ports are attempted in configuration order, the first
successful connect short-circuits the remaining ports, and the returned
hit carries that port together with the elapsed time accumulated since
the start of the whole address probe (the durations of all earlier
failed attempts plus the winning attempt), not just the winning
attempt's own duration. -/
theorem port_slice_and_first_hit (T : Nat) (ports : List Nat) (sim : SimRng)
    (net : Nat → ConnectRes × Nat) (k : Nat) (hk : k < ports.length)
    (hbefore : ∀ j, j < k → (net j).1 ≠ ConnectRes.ok)
    (hok : (net k).1 = ConnectRes.ok) :
    Scanner.port_timeout ⟨ports, T, false⟩ = T / max 1 ports.length ∧
    Scanner.check_ip ⟨ports, T, false⟩ sim net =
      some (some (ports.get ⟨k, hk⟩),
        some (((List.range (k + 1)).map (fun i => (net i).2)).sum), none) := by
  constructor
  · unfold Scanner.port_timeout
    rw [Nat.max_comm]
  · unfold Scanner.check_ip
    rw [if_neg (by simp)]
    rw [check_ip_loop_first_ok ports net 0 none k hk hbefore hok]
    simp

/-- C4 witness: budget 1000ms over ports `[80, 443]` gives 500ms per
port; port 80 times out after 500ms, port 443 connects after a further
100ms, and the hit reports port 443 with 600ms elapsed. -/
theorem port_slice_and_first_hit_witness :
    Scanner.port_timeout ⟨[80, 443], 1000, false⟩ = 500 ∧
    Scanner.check_ip ⟨[80, 443], 1000, false⟩ ⟨false, 0⟩ net_timeout_then_ok =
      some (some 443, some 600, none) := by
  have h := port_slice_and_first_hit 1000 [80, 443] ⟨false, 0⟩ net_timeout_then_ok 1
    (by decide)
    (by intro j hj; cases j with
      | zero => decide
      | succ n => omega)
    (by decide)
  refine ⟨?_, ?_⟩
  · rw [h.1]; decide
  · rw [h.2]; decide

/-! ## Claim C6 -/

theorem next_ip_lt (N cur : Nat) (samples : List Ipv4) (h : cur < N) :
    RandomSource.next_ip ⟨N, cur⟩ samples = (first_public samples, ⟨N, cur + 1⟩) := by
  unfold RandomSource.next_ip
  rw [if_neg (show ¬ N ≤ cur by omega)]

theorem next_ip_done (N cur : Nat) (samples : List Ipv4) (h : N ≤ cur) :
    RandomSource.next_ip ⟨N, cur⟩ samples = (none, ⟨N, cur⟩) := by
  unfold RandomSource.next_ip
  rw [if_pos (show N ≤ cur from h)]

theorem run_random_state (N : Nat) (traces : Nat → List Ipv4) (k : Nat) :
    RandomSource.run ⟨N, 0⟩ traces k = ⟨N, min k N⟩ := by
  induction k with
  | zero => simp [RandomSource.run]
  | succ m ih =>
      rw [RandomSource.run, ih]
      by_cases h : m < N
      · rw [next_ip_lt N (min m N) (traces m) (by omega)]
        simp only [RandomSource.mk.injEq, true_and]
        omega
      · rw [next_ip_done N (min m N) (traces m) (by omega)]
        simp only [RandomSource.mk.injEq, true_and]
        omega

theorem first_public_spec (l : List Ipv4)
    (h : ∃ ip ∈ l, filter.is_public_ipv4 ip = true) :
    ∃ ip, first_public l = some ip ∧ filter.is_public_ipv4 ip = true := by
  induction l with
  | nil => rcases h with ⟨ip, hm, _⟩; cases hm
  | cons a rest ih =>
      by_cases ha : filter.is_public_ipv4 a = true
      · exact ⟨a, by simp [first_public, ha], ha⟩
      · rcases h with ⟨ip, hm, hp⟩
        rcases List.mem_cons.mp hm with rfl | hm2
        · exact absurd hp ha
        · rcases ih ⟨ip, hm2, hp⟩ with ⟨ip2, h1, h2⟩
          exact ⟨ip2, by simp [first_public, ha, h1], h2⟩

/-- C6: a `RandomSource` built with `count = N, current = 0` yields over
successive `next_ip` calls exactly `N` `Some` results — each carrying an
address accepted by `filter::is_public_ipv4` — before yielding `None`
forever, and `total_count` returns `N` throughout.  The rng is modelled
by per-call candidate traces; the hypothesis that each trace offers some
public address is exactly the termination assumption of the unbounded
sampling loop inside `next_ip`. -/
theorem random_source_yields (N : Nat) (traces : Nat → List Ipv4)
    (htr : ∀ k, ∃ ip ∈ traces k, filter.is_public_ipv4 ip = true) :
    (∀ k, k < N → ∃ ip, RandomSource.result_at ⟨N, 0⟩ traces k = some ip ∧
        filter.is_public_ipv4 ip = true) ∧
    (∀ k, N ≤ k → RandomSource.result_at ⟨N, 0⟩ traces k = none) ∧
    (∀ k, (RandomSource.run ⟨N, 0⟩ traces k).total_count = N) := by
  refine ⟨?_, ?_, ?_⟩
  · intro k hk
    unfold RandomSource.result_at
    rw [run_random_state, next_ip_lt N (min k N) (traces k) (by omega)]
    exact first_public_spec (traces k) (htr k)
  · intro k hk
    unfold RandomSource.result_at
    rw [run_random_state, next_ip_done N (min k N) (traces k) (by omega)]
  · intro k
    rw [run_random_state]
    rfl

/-- C6 witness: a source of count 1 whose rng always offers `8.8.8.8`
yields a public address on its first call. -/
theorem random_source_yields_witness :
    ∃ ip, RandomSource.result_at ⟨1, 0⟩ traces_dns 0 = some ip ∧
      filter.is_public_ipv4 ip = true := by
  have h := random_source_yields 1 traces_dns
    (fun k => ⟨⟨8, 8, 8, 8⟩, by simp [traces_dns], by decide⟩)
  exact h.1 0 (by decide)

/-! ## Claims C7 and C8 -/

theorem next_ip_concat (ys : List Ipv4) (y : Ipv4) :
    MultiIpSource.next_ip ⟨ys ++ [y]⟩ = (some y, ⟨ys⟩) := by
  unfold MultiIpSource.next_ip
  rw [List.getLast?_concat]
  simp [List.dropLast_concat]

theorem drainAux_eq_reverse (l : List Ipv4) : drainAux l.length ⟨l⟩ = l.reverse := by
  induction l using List.reverseRecOn with
  | nil => rfl
  | append_singleton ys y ih =>
      rw [show (ys ++ [y]).length = ys.length + 1 by simp]
      unfold drainAux
      rw [next_ip_concat]
      show y :: drainAux ys.length ⟨ys⟩ = (ys ++ [y]).reverse
      rw [ih]
      simp

theorem drain_perm (s : MultiIpSource) : s.drain.Perm s.ips := by
  obtain ⟨l⟩ := s
  unfold MultiIpSource.drain
  rw [show MultiIpSource.ips ⟨l⟩ = l from rfl, drainAux_eq_reverse]
  exact List.reverse_perm l

/-- C7: `from_cidr` expands each well-formed comma-separated entry to
its usable host addresses (network and broadcast excluded), silently
skips malformed entries, concatenates the expansions before the
shuffle, and applies no public-address filter: as drained by the
engine, the source holds exactly that concatenation up to the shuffle's
permutation; in particular `"10.0.0.0/30"` yields exactly
`10.0.0.1` and `10.0.0.2`, both of which the public filter rejects. -/
theorem from_cidr_expansion (shuffle : List Ipv4 → List Ipv4)
    (hs : ∀ l, (shuffle l).Perm l) :
    (∀ cs, (MultiIpSource.from_cidr cs shuffle).drain.Perm (expand_cidr cs)) ∧
    (MultiIpSource.from_cidr "10.0.0.0/30".data shuffle).drain.Perm
      [⟨10, 0, 0, 1⟩, ⟨10, 0, 0, 2⟩] ∧
    (MultiIpSource.from_cidr "garbage, 10.0.0.0/30".data shuffle).drain.Perm
      [⟨10, 0, 0, 1⟩, ⟨10, 0, 0, 2⟩] ∧
    filter.is_public_ipv4 ⟨10, 0, 0, 1⟩ = false ∧
    filter.is_public_ipv4 ⟨10, 0, 0, 2⟩ = false := by
  have hgen : ∀ cs, (MultiIpSource.from_cidr cs shuffle).drain.Perm (expand_cidr cs) :=
    fun cs => (drain_perm _).trans (hs _)
  refine ⟨hgen, ?_, ?_, by decide, by decide⟩
  · have h := hgen "10.0.0.0/30".data
    rw [show expand_cidr "10.0.0.0/30".data =
      [⟨10, 0, 0, 1⟩, ⟨10, 0, 0, 2⟩] by decide] at h
    exact h
  · have h := hgen "garbage, 10.0.0.0/30".data
    rw [show expand_cidr "garbage, 10.0.0.0/30".data =
      [⟨10, 0, 0, 1⟩, ⟨10, 0, 0, 2⟩] by decide] at h
    exact h

/-- C7 witness: the identity shuffle on the concrete block. -/
theorem from_cidr_expansion_witness :
    (MultiIpSource.from_cidr "10.0.0.0/30".data id).drain.Perm
      [⟨10, 0, 0, 1⟩, ⟨10, 0, 0, 2⟩] :=
  (from_cidr_expansion id (fun l => List.Perm.refl l)).2.1

/-- C8: `from_file` parses each trimmed line as an IPv4 address and
silently discards every unparseable line: as drained by the engine, the
source holds exactly the multiset of parseable addresses of the file;
in particular the contents `"1.2.3.4\nnot-an-ip\n5.6.7.8"` yield exactly
`{1.2.3.4, 5.6.7.8}`. -/
theorem from_file_parseable (shuffle : List Ipv4 → List Ipv4)
    (hs : ∀ l, (shuffle l).Perm l) :
    (∀ content, (MultiIpSource.from_file content shuffle).drain.Perm
      ((rust_lines content).filterMap (fun l => parse_ipv4 (trimChars l)))) ∧
    (MultiIpSource.from_file "1.2.3.4\nnot-an-ip\n5.6.7.8".data shuffle).drain.Perm
      [⟨1, 2, 3, 4⟩, ⟨5, 6, 7, 8⟩] := by
  have hgen : ∀ content, (MultiIpSource.from_file content shuffle).drain.Perm
      ((rust_lines content).filterMap (fun l => parse_ipv4 (trimChars l))) :=
    fun content => (drain_perm _).trans (hs _)
  refine ⟨hgen, ?_⟩
  have h := hgen "1.2.3.4\nnot-an-ip\n5.6.7.8".data
  rw [show (rust_lines "1.2.3.4\nnot-an-ip\n5.6.7.8".data).filterMap
    (fun l => parse_ipv4 (trimChars l)) = [⟨1, 2, 3, 4⟩, ⟨5, 6, 7, 8⟩] by decide] at h
  exact h

/-- C8 witness: the identity shuffle on the concrete file contents. -/
theorem from_file_parseable_witness :
    (MultiIpSource.from_file "1.2.3.4\nnot-an-ip\n5.6.7.8".data id).drain.Perm
      [⟨1, 2, 3, 4⟩, ⟨5, 6, 7, 8⟩] :=
  (from_file_parseable id (fun l => List.Perm.refl l)).2
